import Mathlib

/-!
Verification development for the trackable-request-handler repository.

The repository is a JavaScript client-side request-tracking layer
(`src/RequestHandler.js`, `src/actions.js`, the `requestsReducer`, and the
`parseOfflineArg` helper).  This file gives a shallow embedding of its data
model and operations and proves the specification claims about them.

Modelling conventions:
* JavaScript values relevant to the offline setting are modelled by `JSVal`,
  with `JSNum` separating `NaN` from ordinary (integer) numbers.  All numbers
  that occur in this code path are integers, so `Int` suffices.
* The Immutable.js map `path → method → event → timestamp` is modelled by
  nested association lists with `getIn` / `setIn` / delete operations.
* A dispatch call is modelled as a virtual-time trace of discrete steps
  (tracking events, transport/offline invocations, callback invocations,
  outer-promise settlement).  A synchronous throw out of the thunk is an
  `Except.error`; an asynchronous rejection is a `settle (.error _)` step.
-/

/-- JavaScript numbers reachable from the offline-setting code: `NaN` or an
integer value (only integers occur in this code path). -/
inductive JSNum where
  | nan
  | val (i : Int)
  deriving DecidableEq, Repr

/-- The JavaScript values the offline-setting code can receive or store. -/
inductive JSVal where
  | bool (b : Bool)
  | num (n : JSNum)
  | str (s : String)
  | undef
  | null
  deriving DecidableEq, Repr

/-- Model of the JavaScript `Number(s)` conversion on the strings this code
meets: the empty string converts to `0`, an optionally `-`-signed run of
decimal digits converts to that integer, and every other string converts to
`NaN` (so for example `Number of "abc"`, `Number of "true"`, and
`Number of "false"` are all `NaN`). -/
def jsStringToNumber (s : String) : JSNum :=
  let chars := s.toList
  if chars = [] then .val 0
  else if chars.all Char.isDigit then
    .val (Int.ofNat (chars.foldl (fun a c => a * 10 + c.toNat - 48) 0))
  else if chars.head? = some ('-') ∧ (chars.drop 1) ≠ [] ∧ (chars.drop 1).all Char.isDigit then
    .val (-(Int.ofNat ((chars.drop 1).foldl (fun a c => a * 10 + c.toNat - 48) 0)))
  else .nan

/-- `RequestHandler._parseOfflineValue` (src/RequestHandler.js lines 57-69):
`'false' ↦ false`, `'true' ↦ 0`, other strings through `Number`, `true ↦ 0`,
everything else passed through unchanged. -/
def parseOfflineValue (value : JSVal) : JSVal :=
  if value = .str ("false") then .bool false
  else if value = .str ("true") then .num (.val 0)
  else
    match value with
    | .str s => .num (jsStringToNumber s)
    | _ => if value = .bool true then .num (.val 0) else value

/-- The standalone `parseOfflineArg` helper (src/unnamed/part_001): `'true'`
and `true` map to `0`, other strings map to their numeric value or to `false`
when the conversion gives `NaN`, and every other value maps to `false`.
(The source binds its parameter as `arg` but reads `value`; the body is
modelled with the single intended parameter.) -/
def parseOfflineArg (value : JSVal) : JSVal :=
  if value = .str ("true") then .num (.val 0)
  else if value = .bool true then .num (.val 0)
  else
    match value with
    | .str s =>
      match jsStringToNumber s with
      | .nan => .bool false
      | n => .num n
    | _ => .bool false

/-- `RequestHandler._isOffline` (src/RequestHandler.js lines 53-55):
`typeof this.offline === 'number'`.  `NaN` and negative numbers have
JavaScript type `number`, so they count as offline. -/
def isOffline (offline : JSVal) : Bool :=
  match offline with
  | .num _ => true
  | _ => false

/-- The millisecond delay `setTimeout` actually waits given the stored
offline value: `NaN` and negative delays are clamped to `0`. -/
def delayOf (offline : JSVal) : Nat :=
  match offline with
  | .num (.val i) => i.toNat
  | _ => 0

/-! ## Tracking state: nested association lists modelling the Immutable.js map -/

/-- First-match lookup in an association list. -/
def aListGet {α : Type} (l : List (String × α)) (k : String) : Option α :=
  match l with
  | [] => none
  | (k', v) :: rest => if k' = k then some v else aListGet rest k

/-- Replace the first binding of `k` (or append one). -/
def aListSet {α : Type} (l : List (String × α)) (k : String) (v : α) :
    List (String × α) :=
  match l with
  | [] => [(k, v)]
  | (k', v') :: rest =>
    if k' = k then (k, v) :: rest else (k', v') :: aListSet rest k v

/-- Delete every binding of `k` (models `Immutable.Map.delete`). -/
def aListDel {α : Type} (l : List (String × α)) (k : String) :
    List (String × α) :=
  match l with
  | [] => []
  | (k', v') :: rest =>
    if k' = k then aListDel rest k else (k', v') :: aListDel rest k

/-- The tracking store: `url → method → event → timestamp`. -/
abbrev TrackState := List (String × List (String × List (String × String)))

/-- `Immutable.Map.getIn [u, m, e]`. -/
def getIn (s : TrackState) (u m e : String) : Option String :=
  (aListGet s u).bind (fun l2 => (aListGet l2 m).bind (fun l3 => aListGet l3 e))

/-- `Immutable.Map.setIn [u, m, e] t`, creating intermediate maps as needed. -/
def setIn (s : TrackState) (u m e t : String) : TrackState :=
  let l2 := (aListGet s u).getD []
  let l3 := (aListGet l2 m).getD []
  aListSet s u (aListSet l2 m (aListSet l3 e t))

/-- A Redux action as produced by `src/actions.js`. -/
structure RAction where
  type : String
  url : String
  method : String
  time : String
  clearHistory : Bool
  deriving DecidableEq, Repr

/-- The `record` action creator of src/actions.js: builds a `RECORD_<type>`
action.  In the source, `method`, `time` and `clearHistory` have defaults
`'GET'`, the current ISO timestamp, and `true`; defaults are supplied at the
call sites modelled below. -/
def record (type url method time : String) (clearHistory : Bool) : RAction :=
  { type := ("RECORD_") ++ type, url := url, method := method, time := time,
    clearHistory := clearHistory }

/-- `recordRequest` with the source's default `clearHistory = true`. -/
def recordRequest (url method time : String) : RAction :=
  record ("REQUEST") url method time true

/-- `recordSuccess` with the source's default `clearHistory = true`. -/
def recordSuccess (url method time : String) : RAction :=
  record ("SUCCESS") url method time true

/-- `recordFailure` with the source's default `clearHistory = true`. -/
def recordFailure (url method time : String) : RAction :=
  record ("FAILURE") url method time true

/-- Splitting a character list at every occurrence of a separator, keeping an
accumulator of the current (reversed) segment. -/
def splitCharsAux (sep : Char) (l : List Char) (acc : List Char) :
    List (List Char) :=
  match l with
  | [] => [acc.reverse]
  | c :: rest =>
    if c = sep then acc.reverse :: splitCharsAux sep rest []
    else splitCharsAux sep rest (c :: acc)

/-- Model of the JavaScript `s.split(sep)` for a one-character separator. -/
def jsSplit (s : String) (sep : Char) : List String :=
  (splitCharsAux sep s.toList []).map List.asString

/-- The `requestsReducer` embedded in the repository (the reducer document in
src/RequestHandler.js, lines 355-372): ignores non-`RECORD_*` actions; on
`RECORD_SUCCESS` / `RECORD_FAILURE` with `clearHistory` set it first deletes
the whole entry at `action.url`, then stores the timestamp at
`[url, method, event]`. -/
def requestsReducer (state : TrackState) (action : RAction) : TrackState :=
  let types := [("REQUEST" : String), ("SUCCESS"), ("FAILURE")].map
    (fun t => ("RECORD_") ++ t)
  if types.contains action.type then
    let event := ((jsSplit action.type ('_')).getD 1 (""))
    let newState :=
      if event ≠ ("REQUEST") ∧ action.clearHistory then aListDel state action.url
      else state
    setIn newState action.url action.method event action.time
  else state

/-! ## The dispatch engine (`RequestHandler`) -/

/-- The routing object returned by `api.path()`: a `(path, method)` pair. -/
structure PathObj where
  path : String
  method : String
  deriving DecidableEq, Repr

/-- Errors a dispatch can fail with: a thrown `Error(msg)` (unknown API,
missing offline handler) or whatever value the injected transport rejected
with. -/
inductive DErr (E : Type) where
  | thrown (msg : String)
  | transportErr (e : E)
  deriving DecidableEq, Repr

/-- A tracking lifecycle event kind. -/
inductive TrackEvent where
  | requested
  | succeeded
  | failed
  deriving DecidableEq, Repr

/-- The value the outer promise resolves with: a transport / offline
response, or the empty object `\x7b\x7d` that `reqOnce` short-circuits with. -/
inductive SettleVal (R : Type) where
  | resp (r : R)
  | emptyObj
  deriving DecidableEq, Repr

/-- Equality of `Except` results is decidable when it is on both sides. -/
instance {ε α : Type} [DecidableEq ε] [DecidableEq α] : DecidableEq (Except ε α) :=
  fun a b =>
    match a, b with
    | .error e, .error e' =>
      if h : e = e' then .isTrue (by rw [h]) else .isFalse (by simp [h])
    | .ok v, .ok v' =>
      if h : v = v' then .isTrue (by rw [h]) else .isFalse (by simp [h])
    | .error _, .ok _ => .isFalse (by simp)
    | .ok _, .error _ => .isFalse (by simp)

/-- One observable step of a dispatch call:
a dispatched tracking action, a transport invocation, an invocation of the
descriptor's `offlineResponse`, an `onSuccess` / `onFailure` callback call,
a `console.error` log, or the settlement of the outer promise. -/
inductive Step (E R : Type) where
  | track (ev : TrackEvent)
  | transportCall (p : PathObj)
  | offlineCall
  | cbSuccess (r : R)
  | cbFailure (e : DErr E)
  | logError (e : DErr E)
  | settle (out : Except (DErr E) (SettleVal R))
  deriving DecidableEq, Repr

/-- A dispatch trace: steps with the virtual times at which they happen. -/
abbrev Trace (E R : Type) := List (Nat × Step E R)

/-- An API descriptor as consumed by `_handleRequest`: the routing object
`api.path()` evaluates to, the optional `offlineResponse` stub (a function of
`getState`), whether `onSuccess` / `onFailure` callbacks are present, and the
`name` the engine assigns. -/
structure API (E R : Type) where
  pathObj : PathObj
  offlineResponse : Option (TrackState → R)
  hasOnSuccess : Bool
  hasOnFailure : Bool
  name : String

/-- `RequestHandler._handleRequest` (src/RequestHandler.js lines 119-162) as
a virtual-time trace, starting at time `t0` with tracking state `state`.

The injected transport is modelled by its eventual settlement: for a routing
object it yields a duration and an `Except` result.  Offline, the engine
rejects inside the promise executor when `offlineResponse` is absent (the
rejection is then handled by the common `.catch` branch), and otherwise calls
the stub after `setTimeout`'s clamped delay.  The common continuation records
SUCCESS then calls `onSuccess` then resolves, or records FAILURE then calls
`onFailure` (else logs) then rejects. -/
def handleRequest {E R : Type} (offline : JSVal)
    (transport : PathObj → Nat × Except E R) (api : API E R)
    (state : TrackState) (t0 : Nat) : Trace E R :=
  let p := api.pathObj
  if isOffline offline then
    match api.offlineResponse with
    | none =>
      let e : DErr E := .thrown (("No offline function defined for API ") ++ api.name ++ (":"))
      (t0, .track .requested) ::
      (t0, .track .failed) ::
      (if api.hasOnFailure then (t0, Step.cbFailure e) else (t0, Step.logError e)) ::
      [(t0, .settle (.error e))]
    | some f =>
      let t1 := t0 + delayOf offline
      let r := f state
      (t0, .track .requested) ::
      (t1, .offlineCall) ::
      (t1, .track .succeeded) ::
      (if api.hasOnSuccess then [(t1, Step.cbSuccess r)] else []) ++
      [(t1, .settle (.ok (.resp r)))]
  else
    let d := (transport p).1
    let t1 := t0 + d
    (t0, .track .requested) ::
    (t0, .transportCall p) ::
    match (transport p).2 with
    | .ok r =>
      (t1, .track .succeeded) ::
      (if api.hasOnSuccess then [(t1, Step.cbSuccess r)] else []) ++
      [(t1, .settle (.ok (.resp r)))]
    | .error e =>
      (t1, .track .failed) ::
      (if api.hasOnFailure then (t1, Step.cbFailure (.transportErr e))
       else (t1, Step.logError (.transportErr e))) ::
      [(t1, .settle (.error (.transportErr e)))]

/-- `RequestHandler._getAPI` (src/RequestHandler.js lines 164-175): looks the
factory up in the registry, throws `Error('No api object found with name: ' +
name)` when absent, and otherwise builds the descriptor and assigns its
`name`. -/
def getAPI {E R A : Type} (apis : String → Option (A → API E R))
    (name : String) (args : A) : Except (DErr E) (API E R) :=
  match apis name with
  | none => .error (.thrown (("No api object found with name: ") ++ name))
  | some factory => .ok { factory args with name := name }

/-- `RequestHandler.req` (src/RequestHandler.js lines 71-78): the thunk
resolves the descriptor (throwing synchronously on an unknown name, modelled
by `Except.error`) and hands it to `_handleRequest`. -/
def req {E R A : Type} (apis : String → Option (A → API E R)) (offline : JSVal)
    (transport : PathObj → Nat × Except E R) (name : String) (args : A)
    (state : TrackState) (t0 : Nat) : Except (DErr E) (Trace E R) :=
  (getAPI apis name args).map (fun api => handleRequest offline transport api state t0)

/-- The pluggable finder set: `findRequest` / `findSuccess` / `findFailure`,
each mapping the tracking state and a routing object to a stored timestamp or
absence. -/
structure Finders where
  findRequest : TrackState → PathObj → Option String
  findSuccess : TrackState → PathObj → Option String
  findFailure : TrackState → PathObj → Option String

/-- Model of JavaScript `toUpperCase`, character by character (the event-type
strings this code uppercases are plain ASCII). -/
def jsToUpper (s : String) : String :=
  (s.toList.map Char.toUpper).asString

/-- The default finder (src/RequestHandler.js lines 3-8): looks up
`[path, method, TYPE.toUpperCase()]` in the tracking state. -/
def findDefault (type : String) (requestHistory : TrackState)
    (requestOptions : PathObj) : Option String :=
  getIn requestHistory requestOptions.path requestOptions.method (jsToUpper type)

/-- `RequestHandler._defineFinders` with no overrides: the three default
finders for `'request'`, `'success'`, `'failure'`. -/
def defaultFinders : Finders :=
  { findRequest := findDefault ("request"),
    findSuccess := findDefault ("success"),
    findFailure := findDefault ("failure") }

/-- JavaScript truthiness of a finder result: `undefined` (absence) and the
empty string are falsy; any other stored timestamp string is truthy. -/
def truthyTime (r : Option String) : Bool :=
  match r with
  | none => false
  | some s => s ≠ ("")

/-- The `any()` member of `_generateTracker`'s tracker (src/RequestHandler.js
lines 104-107): true when some of the three finders returns a truthy value
for the routing object. -/
def trackerAny (fs : Finders) (requestHistory : TrackState)
    (requestOptions : PathObj) : Bool :=
  [fs.findRequest, fs.findSuccess, fs.findFailure].any
    (fun finder => truthyTime (finder requestHistory requestOptions))

/-- `RequestHandler.reqOnce` (src/RequestHandler.js lines 80-93): resolves
the descriptor, consults the tracker over the current tracking state, and
either short-circuits with a promise resolving to the empty object or
delegates to `_handleRequest`. -/
def reqOnce {E R A : Type} (apis : String → Option (A → API E R))
    (offline : JSVal) (transport : PathObj → Nat × Except E R) (fs : Finders)
    (name : String) (args : A) (state : TrackState) (t0 : Nat) :
    Except (DErr E) (Trace E R) :=
  (getAPI apis name args).map (fun api =>
    if trackerAny fs state api.pathObj then [(t0, .settle (.ok .emptyObj))]
    else handleRequest offline transport api state t0)

/-! ## Trace observations -/

/-- The tracking events of a trace, in emission order. -/
def eventsOf {E R : Type} (tr : Trace E R) : List TrackEvent :=
  tr.filterMap (fun s =>
    match s.2 with
    | .track ev => some ev
    | _ => none)

/-- The virtual times at which a given tracking event is emitted. -/
def trackTimes {E R : Type} (tr : Trace E R) (ev : TrackEvent) : List Nat :=
  tr.filterMap (fun s =>
    match s.2 with
    | .track e => if e = ev then some s.1 else none
    | _ => none)

/-- Whether a step is a transport invocation. -/
def isTransportCall {E R : Type} (s : Step E R) : Bool :=
  match s with
  | .transportCall _ => true
  | _ => false

/-- Whether a step is an offline-responder invocation. -/
def isOfflineCall {E R : Type} (s : Step E R) : Bool :=
  match s with
  | .offlineCall => true
  | _ => false

/-- Whether a step is the settlement of the outer promise. -/
def isSettle {E R : Type} (s : Step E R) : Bool :=
  match s with
  | .settle _ => true
  | _ => false

/-- Whether a step is an `onSuccess` callback invocation. -/
def isCbSuccess {E R : Type} (s : Step E R) : Bool :=
  match s with
  | .cbSuccess _ => true
  | _ => false

/-- Whether a step is the given tracking event. -/
def isTrackOf {E R : Type} (ev : TrackEvent) (s : Step E R) : Bool :=
  match s with
  | .track e => e = ev
  | _ => false

/-- Index of the first step satisfying a predicate. -/
def stepIdx {E R : Type} (tr : Trace E R) (p : Step E R → Bool) : Option Nat :=
  match tr with
  | [] => none
  | s :: rest =>
    if p s.2 then some 0 else (stepIdx rest p).map (fun i => i + 1)

/-- How many steps of the trace satisfy a predicate. -/
def stepCount {E R : Type} (tr : Trace E R) (p : Step E R → Bool) : Nat :=
  (tr.filter (fun s => p s.2)).length

/-- The settlement of the outer promise, when the trace contains one. -/
def settleOf {E R : Type} (tr : Trace E R) : Option (Except (DErr E) (SettleVal R)) :=
  tr.filterMap (fun s =>
    match s.2 with
    | .settle out => some out
    | _ => none) |>.head?

/-- The tracking events a `req` / `reqOnce` call emits: none when the thunk
threw synchronously, else the events of its trace. -/
def reqEvents {E R : Type} (r : Except (DErr E) (Trace E R)) : List TrackEvent :=
  match r with
  | .error _ => []
  | .ok tr => eventsOf tr

/-! ## Witness fixtures: a tiny concrete registry, transports and state -/

/-- A concrete routing object. -/
def pathW : PathObj := { path := ("p"), method := ("GET") }

/-- A concrete descriptor with an offline stub and an `onSuccess` callback. -/
def apiOnW : API String String :=
  { pathObj := pathW, offlineResponse := some (fun _ => ("stub")),
    hasOnSuccess := true, hasOnFailure := false, name := ("a") }

/-- A concrete descriptor without an offline stub. -/
def apiNoOffW : API String String :=
  { pathObj := pathW, offlineResponse := none,
    hasOnSuccess := false, hasOnFailure := false, name := ("a") }

/-- A registry holding the single API name `a`. -/
def registryW : String → Option (Unit → API String String) :=
  fun n => if n = ("a") then some (fun _ => apiOnW) else none

/-- A transport that fulfils after two ticks. -/
def transOkW : PathObj → Nat × Except String String :=
  fun _ => (2, .ok ("yay"))

/-- A transport that rejects after three ticks. -/
def transErrW : PathObj → Nat × Except String String :=
  fun _ => (3, .error ("boom"))

/-- A tracking state holding one prior REQUEST timestamp for `pathW`. -/
def stateReqW : TrackState := [(("p"), [(("GET"), [(("REQUEST"), ("t0"))])])]

/-! ## Association-list and tracking-store lemmas -/

theorem aListGet_set {α : Type} (l : List (String × α)) (k q : String) (v : α) :
    aListGet (aListSet l k v) q = if q = k then some v else aListGet l q := by
  induction l with
  | nil =>
    by_cases h : q = k
    · simp [aListSet, aListGet, h]
    · simp [aListSet, aListGet, h, Ne.symm h]
  | cons hd rest ih =>
    obtain ⟨a, b⟩ := hd
    by_cases hak : a = k
    · subst hak
      by_cases hq : q = a
      · simp [aListSet, aListGet, hq]
      · simp [aListSet, aListGet, hq, Ne.symm hq]
    · by_cases hq : q = a
      · subst hq
        simp [aListSet, aListGet, hak, ih]
      · simp [aListSet, aListGet, hak, hq, Ne.symm hq, ih]

theorem aListGet_del {α : Type} (l : List (String × α)) (k q : String) :
    aListGet (aListDel l k) q = if q = k then none else aListGet l q := by
  induction l with
  | nil =>
    by_cases h : q = k <;> simp [aListDel, aListGet, h]
  | cons hd rest ih =>
    obtain ⟨a, b⟩ := hd
    by_cases hak : a = k
    · subst hak
      by_cases hq : q = a
      · subst hq
        simp [aListDel, aListGet, ih]
      · simp [aListDel, aListGet, hq, Ne.symm hq, ih]
    · by_cases hq : q = a
      · subst hq
        simp [aListDel, aListGet, hak, Ne.symm hak, ih]
      · simp [aListDel, aListGet, hak, hq, Ne.symm hq, ih]

theorem getIn_del (s : TrackState) (u u' m' e' : String) :
    getIn (aListDel s u) u' m' e' = if u' = u then none else getIn s u' m' e' := by
  unfold getIn
  rw [aListGet_del]
  by_cases hu : u' = u <;> simp [hu]

theorem getIn_setIn (s : TrackState) (u m e t u' m' e' : String) :
    getIn (setIn s u m e t) u' m' e' =
      if u' = u ∧ m' = m ∧ e' = e then some t else getIn s u' m' e' := by
  unfold getIn setIn
  rw [aListGet_set]
  by_cases hu : u' = u
  · subst hu
    rw [if_pos rfl]
    simp only [Option.some_bind]
    rw [aListGet_set]
    by_cases hm : m' = m
    · subst hm
      rw [if_pos rfl]
      simp only [Option.some_bind]
      rw [aListGet_set]
      by_cases he : e' = e
      · simp [he]
      · rw [if_neg he]
        simp only [true_and, he, and_false, if_false]
        cases hs : aListGet s u' with
        | none => simp [aListGet]
        | some l2 =>
          simp only [Option.getD_some, Option.some_bind]
          cases h2 : aListGet l2 m' with
          | none => simp [aListGet]
          | some l3 => simp
    · rw [if_neg hm]
      simp only [hm, false_and, and_false, if_false]
      cases hs : aListGet s u' with
      | none => simp [aListGet]
      | some l2 => simp
  · rw [if_neg hu, if_neg (fun h => hu h.1)]

theorem requestsReducer_request_eq (s : TrackState) (u m t : String) (clear : Bool) :
    requestsReducer s (record ("REQUEST") u m t clear) = setIn s u m ("REQUEST") t := rfl

theorem requestsReducer_success_eq (s : TrackState) (u m t : String) :
    requestsReducer s (record ("SUCCESS") u m t true) =
      setIn (aListDel s u) u m ("SUCCESS") t := rfl

theorem requestsReducer_failure_eq (s : TrackState) (u m t : String) :
    requestsReducer s (record ("FAILURE") u m t true) =
      setIn (aListDel s u) u m ("FAILURE") t := rfl

/-! ## Claim C5: the offline-setting normalization function -/

/-- C5 counterexample: the claim states `normalize("abc") == false`, but the
engine's normalizer `_parseOfflineValue` sends the non-numeric string
`"abc"` through `Number`, producing `NaN`, not `false`. -/
theorem parseOfflineValue_abc_not_false :
    ¬ parseOfflineValue (.str ("abc")) = .bool false := by decide

/-- C5 (amended): the engine's offline-setting normalizer satisfies
`normalize(true) = 0`, `normalize("true") = 0`, `normalize(false) = false`,
`normalize("false") = false`, `normalize("5") = 5`, and every number (also
negative or `NaN`) is returned unchanged; but `normalize("abc")` is `NaN`
(a value of JavaScript type `number`, hence treated as offline), not
`false`. -/
theorem parseOfflineValue_spec :
    parseOfflineValue (.bool true) = .num (.val 0)
    ∧ parseOfflineValue (.str ("true")) = .num (.val 0)
    ∧ parseOfflineValue (.bool false) = .bool false
    ∧ parseOfflineValue (.str ("false")) = .bool false
    ∧ parseOfflineValue (.str ("5")) = .num (.val 5)
    ∧ parseOfflineValue (.str ("abc")) = .num .nan
    ∧ isOffline (.num .nan) = true
    ∧ ∀ n : JSNum, parseOfflineValue (.num n) = .num n := by
  refine ⟨by decide, by decide, by decide, by decide, by decide, by decide,
    by decide, ?_⟩
  intro n
  cases n <;> rfl

/-- The standalone `parseOfflineArg` helper, by contrast, does map `"abc"`
to `false`, but it also maps every bare number to `false` (its final branch
catches all non-string, non-`true` values), so it does not satisfy the
claim's number-pass-through clause either. -/
theorem parseOfflineArg_divergence :
    parseOfflineArg (.str ("abc")) = .bool false
    ∧ parseOfflineArg (.str ("5")) = .num (.val 5)
    ∧ parseOfflineArg (.num (.val 5)) = .bool false := by decide

/-! ## Claim C9: scope of the reducer's clear-history policy -/

/-- C9 counterexample: recording SUCCESS for `(p, GET)` with the default
`clearHistory = true` also erases the stored history of `(p, POST)` — a key
other than the written `(path, method)` key — because the reducer deletes the
whole `p` entry. -/
theorem requestsReducer_clears_other_method :
    ¬ (getIn (requestsReducer [(("p"), [(("POST"), [(("SUCCESS"), ("t1"))])])]
          (recordSuccess ("p") ("GET") ("t2"))) ("p") ("POST") ("SUCCESS") =
        getIn [(("p"), [(("POST"), [(("SUCCESS"), ("t1"))])])]
          ("p") ("POST") ("SUCCESS")) := by decide

/-- C9 (amended): recording SUCCEEDED or FAILED with the clear-history flag
set (the flag defaults to true) clears prior history for the whole written
path — every method under it — before storing the new timestamp; recording
REQUESTED never clears regardless of the flag; and history stored under every
path other than the written path is unchanged by any recorded event. -/
theorem requestsReducer_clear_scope (s : TrackState)
    (u m t u' m' e' : String) (clear : Bool) :
    (getIn (requestsReducer s (record ("REQUEST") u m t clear)) u' m' e' =
      if u' = u ∧ m' = m ∧ e' = ("REQUEST") then some t else getIn s u' m' e')
    ∧ (getIn (requestsReducer s (record ("SUCCESS") u m t true)) u' m' e' =
      if u' = u then (if m' = m ∧ e' = ("SUCCESS") then some t else none)
      else getIn s u' m' e')
    ∧ (getIn (requestsReducer s (record ("FAILURE") u m t true)) u' m' e' =
      if u' = u then (if m' = m ∧ e' = ("FAILURE") then some t else none)
      else getIn s u' m' e')
    ∧ (recordSuccess u m t).clearHistory = true
    ∧ (recordFailure u m t).clearHistory = true := by
  refine ⟨?_, ?_, ?_, rfl, rfl⟩
  · rw [requestsReducer_request_eq, getIn_setIn]
  · rw [requestsReducer_success_eq, getIn_setIn]
    by_cases hu : u' = u
    · subst hu
      simp [getIn_del]
    · simp [hu, getIn_del]
  · rw [requestsReducer_failure_eq, getIn_setIn]
    by_cases hu : u' = u
    · subst hu
      simp [getIn_del]
    · simp [hu, getIn_del]

/-! ## Claim C1: exactly one REQUESTED, before any terminal event -/

/-- In every `_handleRequest` trace the first tracking event is REQUESTED and
REQUESTED is never emitted again (so every SUCCEEDED / FAILED event of the
call comes after it), in online and offline mode alike. -/
theorem handleRequest_events_shape {E R : Type} (offline : JSVal)
    (transport : PathObj → Nat × Except E R) (api : API E R)
    (state : TrackState) (t0 : Nat) :
    ∃ ts, eventsOf (handleRequest offline transport api state t0) =
      TrackEvent.requested :: ts ∧ TrackEvent.requested ∉ ts := by
  unfold handleRequest
  cases ho : isOffline offline with
  | true =>
    cases hro : api.offlineResponse with
    | none =>
      cases hf : api.hasOnFailure <;>
        exact ⟨[TrackEvent.failed], by simp [eventsOf, hf], by simp⟩
    | some f =>
      cases hs : api.hasOnSuccess <;>
        exact ⟨[TrackEvent.succeeded], by simp [eventsOf, hs], by simp⟩
  | false =>
    cases hres : (transport api.pathObj).2 with
    | ok r =>
      cases hs : api.hasOnSuccess <;>
        exact ⟨[TrackEvent.succeeded], by simp [eventsOf, hres, hs], by simp⟩
    | error e =>
      cases hf : api.hasOnFailure <;>
        exact ⟨[TrackEvent.failed], by simp [eventsOf, hres, hf], by simp⟩

/-- C1: for every registered API name (whose factory returns a descriptor), a
single `req` dispatch emits exactly one REQUESTED tracking event, and that
event precedes any SUCCEEDED or FAILED event of the same call, in both online
and offline mode (the offline setting and the descriptor are arbitrary). -/
theorem req_requested_first {E R A : Type}
    (apis : String → Option (A → API E R)) (offline : JSVal)
    (transport : PathObj → Nat × Except E R) (name : String) (args : A)
    (state : TrackState) (t0 : Nat) (factory : A → API E R)
    (hreg : apis name = some factory) :
    ∃ tr ts, req apis offline transport name args state t0 = .ok tr
      ∧ eventsOf tr = TrackEvent.requested :: ts
      ∧ TrackEvent.requested ∉ ts := by
  obtain ⟨ts, hts, hmem⟩ := handleRequest_events_shape offline transport
    { factory args with name := name } state t0
  exact ⟨_, ts, by simp [req, getAPI, hreg, Except.map], hts, hmem⟩

/-- C1 witness: the theorem applied to the concrete one-entry registry, an
online setting and a fulfilling transport. -/
theorem req_requested_first_witness :
    ∃ tr ts, req registryW (.bool false) transOkW ("a") () [] 0 = .ok tr
      ∧ eventsOf tr = TrackEvent.requested :: ts
      ∧ TrackEvent.requested ∉ ts :=
  req_requested_first registryW (.bool false) transOkW ("a") () [] 0
    (fun _ => apiOnW) rfl

/-! ## Claim C2: transport rejection -/

/-- C2: for every online dispatch whose transport rejects with `e`, the outer
promise rejects with the same `e`, exactly one FAILED tracking event is
emitted, `onFailure` is invoked with `e` when the descriptor defines it, and
otherwise `e` is reported via `console.error`; the error is never
swallowed. -/
theorem handleRequest_transport_failure {E R : Type} (offline : JSVal)
    (transport : PathObj → Nat × Except E R) (api : API E R)
    (state : TrackState) (t0 : Nat) (e : E) (d : Nat)
    (honline : isOffline offline = false)
    (htrans : transport api.pathObj = (d, .error e)) :
    settleOf (handleRequest offline transport api state t0) =
      some (.error (.transportErr e))
    ∧ stepCount (handleRequest offline transport api state t0)
        (isTrackOf .failed) = 1
    ∧ (api.hasOnFailure = true →
        (t0 + d, Step.cbFailure (.transportErr e)) ∈
          handleRequest offline transport api state t0)
    ∧ (api.hasOnFailure = false →
        (t0 + d, Step.logError (.transportErr e)) ∈
          handleRequest offline transport api state t0) := by
  cases hf : api.hasOnFailure <;>
    simp [handleRequest, honline, htrans, settleOf, stepCount, isTrackOf, hf]

/-- C2 witness: the theorem applied to the rejecting transport `transErrW`
and the descriptor `apiOnW` (which has no `onFailure`, so the error is
logged). -/
theorem handleRequest_transport_failure_witness :
    settleOf (handleRequest (.bool false) transErrW apiOnW [] 0) =
      some (.error (.transportErr ("boom")))
    ∧ stepCount (handleRequest (.bool false) transErrW apiOnW [] 0)
        (isTrackOf .failed) = 1
    ∧ (apiOnW.hasOnFailure = true →
        (0 + 3, Step.cbFailure (.transportErr ("boom"))) ∈
          handleRequest (.bool false) transErrW apiOnW [] 0)
    ∧ (apiOnW.hasOnFailure = false →
        (0 + 3, Step.logError (.transportErr ("boom"))) ∈
          handleRequest (.bool false) transErrW apiOnW [] 0) :=
  handleRequest_transport_failure (.bool false) transErrW apiOnW [] 0
    ("boom") 3 rfl rfl

/-! ## Claim C6: unknown API name -/

/-- C6: for every API name not present in the registry, `req` fails
synchronously (modelled by the thunk-level `Except.error`, reached before any
tracking dispatch) with the `No api object found with name:` error naming the
API, and no tracking events are emitted. -/
theorem req_unknown_api {E R A : Type} (apis : String → Option (A → API E R))
    (offline : JSVal) (transport : PathObj → Nat × Except E R) (name : String)
    (args : A) (state : TrackState) (t0 : Nat)
    (hmiss : apis name = none) :
    req apis offline transport name args state t0 =
      .error (.thrown (("No api object found with name: ") ++ name))
    ∧ reqEvents (req apis offline transport name args state t0) = [] := by
  constructor <;> simp [req, getAPI, hmiss, reqEvents, Except.map]

/-- C6 witness: the theorem applied to the name `nope`, which the concrete
registry does not contain. -/
theorem req_unknown_api_witness :
    req registryW (.bool false) transOkW ("nope") () [] 0 =
      .error (.thrown (("No api object found with name: ") ++ ("nope")))
    ∧ reqEvents (req registryW (.bool false) transOkW ("nope") () [] 0) = [] :=
  req_unknown_api registryW (.bool false) transOkW ("nope") () [] 0 rfl

/-! ## Claim C7: offline dispatch without an offline responder -/

/-- C7: every offline-mode dispatch whose descriptor lacks an
`offlineResponse` rejects with the `No offline function defined for API`
error naming the API; no SUCCEEDED event is emitted, and the REQUESTED event
was already emitted before the failure (it is the first tracking event). -/
theorem handleRequest_missing_offline {E R : Type} (offline : JSVal)
    (transport : PathObj → Nat × Except E R) (api : API E R)
    (state : TrackState) (t0 : Nat)
    (hoff : isOffline offline = true) (hnone : api.offlineResponse = none) :
    settleOf (handleRequest offline transport api state t0) =
      some (.error (.thrown
        (("No offline function defined for API ") ++ api.name ++ (":"))))
    ∧ TrackEvent.succeeded ∉
        eventsOf (handleRequest offline transport api state t0)
    ∧ (eventsOf (handleRequest offline transport api state t0)).head? =
        some TrackEvent.requested := by
  cases hf : api.hasOnFailure <;>
    simp [handleRequest, hoff, hnone, settleOf, eventsOf, hf]

/-- C7 witness: the theorem applied to a zero-delay offline setting and the
stub-less descriptor `apiNoOffW`. -/
theorem handleRequest_missing_offline_witness :
    settleOf (handleRequest (.num (.val 0)) transOkW apiNoOffW [] 0) =
      some (.error (.thrown
        (("No offline function defined for API ") ++ apiNoOffW.name ++ (":"))))
    ∧ TrackEvent.succeeded ∉
        eventsOf (handleRequest (.num (.val 0)) transOkW apiNoOffW [] 0)
    ∧ (eventsOf (handleRequest (.num (.val 0)) transOkW apiNoOffW [] 0)).head? =
        some TrackEvent.requested :=
  handleRequest_missing_offline (.num (.val 0)) transOkW apiNoOffW [] 0 rfl rfl

/-! ## Claim C3: the once-guard short-circuit -/

/-- C3: whenever any of the three finders reports a prior (truthy) timestamp
for the target routing object, `reqOnce` resolves immediately (at `t0`) with
the empty result, emits no tracking events, and invokes neither the transport
nor the offline responder. -/
theorem reqOnce_prior_history {E R A : Type}
    (apis : String → Option (A → API E R)) (offline : JSVal)
    (transport : PathObj → Nat × Except E R) (fs : Finders) (name : String)
    (args : A) (state : TrackState) (t0 : Nat) (factory : A → API E R)
    (hreg : apis name = some factory)
    (hany : trackerAny fs state (factory args).pathObj = true) :
    ∃ tr, reqOnce apis offline transport fs name args state t0 = .ok tr
      ∧ tr = [(t0, .settle (.ok .emptyObj))]
      ∧ eventsOf tr = []
      ∧ stepCount tr isTransportCall = 0
      ∧ stepCount tr isOfflineCall = 0 := by
  refine ⟨[(t0, .settle (.ok .emptyObj))], ?_, rfl, by simp [eventsOf],
    by simp [stepCount, isTransportCall], by simp [stepCount, isOfflineCall]⟩
  simp [reqOnce, getAPI, hreg, hany, Except.map]

/-- C3 witness: the theorem applied to the default finders over a state with
a prior REQUEST timestamp for the target path. -/
theorem reqOnce_prior_history_witness :
    ∃ tr, reqOnce registryW (.bool false) transOkW defaultFinders ("a") ()
        stateReqW 0 = .ok tr
      ∧ tr = [(0, .settle (.ok .emptyObj))]
      ∧ eventsOf tr = []
      ∧ stepCount tr isTransportCall = 0
      ∧ stepCount tr isOfflineCall = 0 :=
  reqOnce_prior_history registryW (.bool false) transOkW defaultFinders
    ("a") () stateReqW 0 (fun _ => apiOnW) rfl rfl

/-! ## Claim C4: once-guard with no prior history delegates to dispatch -/

/-- C4: for a registered name whose routing object has no prior tracking
history (the tracker's `any()` is false), `reqOnce` returns exactly what
`req` returns: the same trace (hence the same events) and the same
settlement. -/
theorem reqOnce_no_history {E R A : Type}
    (apis : String → Option (A → API E R)) (offline : JSVal)
    (transport : PathObj → Nat × Except E R) (fs : Finders) (name : String)
    (args : A) (state : TrackState) (t0 : Nat) (factory : A → API E R)
    (hreg : apis name = some factory)
    (hnone : trackerAny fs state (factory args).pathObj = false) :
    reqOnce apis offline transport fs name args state t0 =
      req apis offline transport name args state t0 := by
  simp [reqOnce, req, getAPI, hreg, hnone, Except.map]

/-- C4 witness: the theorem applied to the empty tracking state, where the
default finders find nothing. -/
theorem reqOnce_no_history_witness :
    reqOnce registryW (.bool false) transOkW defaultFinders ("a") () [] 0 =
      req registryW (.bool false) transOkW ("a") () [] 0 :=
  reqOnce_no_history registryW (.bool false) transOkW defaultFinders ("a") ()
    [] 0 (fun _ => apiOnW) rfl rfl

/-! ## Claim C8: offline delay and event ordering -/

/-- C8: for an offline dispatch with configured delay `n` and a present
offline responder, REQUESTED is emitted at `t0`, the delay elapses, and
SUCCEEDED is emitted at `t0 + n` (so the elapsed time between REQUESTED and
SUCCEEDED is at least `n`); within the trace REQUESTED is the first step and
the SUCCEEDED event precedes the `onSuccess` invocation (when present),
which precedes the resolution of the outer promise with the stub response. -/
theorem handleRequest_offline_delay {E R : Type}
    (transport : PathObj → Nat × Except E R) (api : API E R)
    (state : TrackState) (t0 n : Nat) (f : TrackState → R)
    (hresp : api.offlineResponse = some f) :
    trackTimes (handleRequest (.num (.val (Int.ofNat n))) transport api state t0)
        .requested = [t0]
    ∧ trackTimes (handleRequest (.num (.val (Int.ofNat n))) transport api state t0)
        .succeeded = [t0 + n]
    ∧ (∀ a ∈ trackTimes (handleRequest (.num (.val (Int.ofNat n))) transport api state t0)
          .requested,
       ∀ b ∈ trackTimes (handleRequest (.num (.val (Int.ofNat n))) transport api state t0)
          .succeeded, a + n ≤ b)
    ∧ stepIdx (handleRequest (.num (.val (Int.ofNat n))) transport api state t0)
        (isTrackOf .requested) = some 0
    ∧ (∃ i j, stepIdx (handleRequest (.num (.val (Int.ofNat n))) transport api state t0)
          (isTrackOf .succeeded) = some i
        ∧ stepIdx (handleRequest (.num (.val (Int.ofNat n))) transport api state t0)
            isSettle = some j
        ∧ i < j
        ∧ (api.hasOnSuccess = true →
            ∃ k, stepIdx (handleRequest (.num (.val (Int.ofNat n))) transport api state t0)
                isCbSuccess = some k ∧ i < k ∧ k < j))
    ∧ settleOf (handleRequest (.num (.val (Int.ofNat n))) transport api state t0) =
        some (.ok (.resp (f state))) := by
  cases hs : api.hasOnSuccess with
  | false =>
    refine ⟨?_, ?_, ?_, ?_, ⟨2, 3, ?_, ?_, by omega, ?_⟩, ?_⟩ <;>
      simp [handleRequest, hresp, hs, trackTimes, stepIdx, settleOf,
        isTrackOf, isSettle, isCbSuccess, delayOf, isOffline]
  | true =>
    refine ⟨?_, ?_, ?_, ?_, ⟨2, 4, ?_, ?_, by omega, fun _ => ⟨3, ?_, by omega, by omega⟩⟩, ?_⟩ <;>
      simp [handleRequest, hresp, hs, trackTimes, stepIdx, settleOf,
        isTrackOf, isSettle, isCbSuccess, delayOf, isOffline]

/-- C8 witness: the theorem applied to the descriptor `apiOnW` with delay 7
starting at virtual time 10. -/
theorem handleRequest_offline_delay_witness :
    trackTimes (handleRequest (.num (.val (Int.ofNat 7))) transOkW apiOnW [] 10)
        .requested = [10]
    ∧ trackTimes (handleRequest (.num (.val (Int.ofNat 7))) transOkW apiOnW [] 10)
        .succeeded = [10 + 7]
    ∧ (∀ a ∈ trackTimes (handleRequest (.num (.val (Int.ofNat 7))) transOkW apiOnW [] 10)
          .requested,
       ∀ b ∈ trackTimes (handleRequest (.num (.val (Int.ofNat 7))) transOkW apiOnW [] 10)
          .succeeded, a + 7 ≤ b)
    ∧ stepIdx (handleRequest (.num (.val (Int.ofNat 7))) transOkW apiOnW [] 10)
        (isTrackOf .requested) = some 0
    ∧ (∃ i j, stepIdx (handleRequest (.num (.val (Int.ofNat 7))) transOkW apiOnW [] 10)
          (isTrackOf .succeeded) = some i
        ∧ stepIdx (handleRequest (.num (.val (Int.ofNat 7))) transOkW apiOnW [] 10)
            isSettle = some j
        ∧ i < j
        ∧ (apiOnW.hasOnSuccess = true →
            ∃ k, stepIdx (handleRequest (.num (.val (Int.ofNat 7))) transOkW apiOnW [] 10)
                isCbSuccess = some k ∧ i < k ∧ k < j))
    ∧ settleOf (handleRequest (.num (.val (Int.ofNat 7))) transOkW apiOnW [] 10) =
        some (.ok (.resp ((fun _ => ("stub")) ([] : TrackState)))) :=
  handleRequest_offline_delay transOkW apiOnW [] 10 7 (fun _ => ("stub")) rfl

/-! ## Claim C10: the offline branch is taken iff the setting is numeric -/

/-- C10: the engine takes the offline branch (no transport invocation in the
trace) precisely when the stored offline setting has numeric type; `NaN` —
which `_parseOfflineValue` produces for non-numeric strings such as `abc` —
and negative numbers are numeric, so both put every dispatch offline rather
than online. -/
theorem offline_branch_numeric {E R : Type} (offline : JSVal)
    (transport : PathObj → Nat × Except E R) (api : API E R)
    (state : TrackState) (t0 : Nat) :
    (isOffline offline = true ↔ ∃ nv, offline = .num nv)
    ∧ (stepCount (handleRequest offline transport api state t0)
        isTransportCall = 0 ↔ isOffline offline = true)
    ∧ parseOfflineValue (.str ("abc")) = .num .nan
    ∧ isOffline (parseOfflineValue (.str ("abc"))) = true
    ∧ parseOfflineValue (.num (.val (-3))) = .num (.val (-3))
    ∧ isOffline (.num (.val (-3))) = true := by
  refine ⟨?_, ?_, by decide, by decide, by decide, by decide⟩
  · cases offline <;> simp [isOffline]
  · cases ho : isOffline offline with
    | true =>
      simp only [ho, iff_true]
      cases hro : api.offlineResponse with
      | none =>
        cases hf : api.hasOnFailure <;>
          simp [handleRequest, ho, hro, hf, stepCount, isTransportCall]
      | some f =>
        cases hs : api.hasOnSuccess <;>
          simp [handleRequest, ho, hro, hs, stepCount, isTransportCall]
    | false =>
      cases hres : (transport api.pathObj).2 with
      | ok r =>
        cases hs : api.hasOnSuccess <;>
          simp [handleRequest, ho, hres, hs, stepCount, isTransportCall]
      | error e =>
        cases hf : api.hasOnFailure <;>
          simp [handleRequest, ho, hres, hf, stepCount, isTransportCall]
